import Mathlib

/-!
Shallow embedding of the learn-mcp server (build/server.js): an MCP server
exposing a user store backed by a single JSON file. The backing file is
modelled by the outcome of JSON-parsing its content (`StoreFile`); filesystem
reads and writes become explicit state passing, and each registered handler
becomes a pure function from store state (plus its inputs) to a result and
the successor store state. Fallible handler bodies (those that can throw)
return `Except`.
-/

/-- A user record as written by `createUser` and read back by the resource
handlers: `{ id, name, email, password }`. -/
structure User where
  id : Int
  name : String
  email : String
  password : String
deriving Repr, DecidableEq

/-- Candidate input to `createUser`: the `{ name, email, password }` fields the
tool handlers pass through. -/
structure Candidate where
  name : String
  email : String
  password : String
deriving Repr, DecidableEq

/-- The backing file `src/data/user.json`, modelled by what `JSON.parse` of its
content yields: either a parse/read failure (corrupt or unreadable file,
carrying the stringified exception) or the parsed list of user records. -/
inductive StoreFile where
  | corrupt (err : String)
  | users (l : List User)
deriving Repr, DecidableEq

/-- `createUser(user)` from server.js: read the file, parse it, assign
`id = users.length + 1`, push `{id, name, email, password}`, write the full
list back, return the id. A corrupt file makes `JSON.parse` throw, which the
function does not catch. -/
def createUser (store : StoreFile) (user : Candidate) : Except String (Int × StoreFile) :=
  match store with
  | .corrupt err => .error err
  | .users l =>
    let id : Int := l.length + 1
    .ok (id, .users (l ++ [{ id := id, name := user.name, email := user.email, password := user.password }]))

/-- A `text` content block of a tool result. -/
structure TextContent where
  text : String
deriving Repr, DecidableEq

/-- A tool-call result: `{ content: [...] }`. -/
structure ToolResult where
  content : List TextContent
deriving Repr, DecidableEq

/-- The `create-user` tool handler: calls `createUser` inside try/catch and
always returns a structured text result (success `Created user: <id>` or
`Failed to create user: <error>`), never propagating the exception. -/
def createUserTool (store : StoreFile) (args : Candidate) : ToolResult × StoreFile :=
  match createUser store args with
  | .ok (id, s) => ({ content := [{ text := "Created user: " ++ toString id }] }, s)
  | .error e => ({ content := [{ text := "Failed to create user: " ++ e }] }, store)

/-- One element of a resource read result's `contents` array. -/
structure ReadContent where
  uri : String
  text : String
  mimeType : String
deriving Repr, DecidableEq

/-- A resource read result: `{ contents: [...] }`. -/
structure ReadResult where
  contents : List ReadContent
deriving Repr, DecidableEq

/-- `JSON.stringify` escaping of one character of a string value (quote,
backslash and common control characters). -/
def jsonEscapeChar (c : Char) : List Char :=
  if c = '"' then ['\\', '"']
  else if c = '\\' then ['\\', '\\']
  else if c = '\n' then ['\\', 'n']
  else if c = '\r' then ['\\', 'r']
  else if c = '\t' then ['\\', 't']
  else [c]

/-- `JSON.stringify` of a string value: quoted, characters escaped. -/
def jsonQuote (s : String) : String :=
  ⟨'"' :: (s.data.map jsonEscapeChar).flatten ++ ['"']⟩

/-- `JSON.stringify(user)` for a user record created by `createUser`: compact
JSON with the keys in insertion order `id, name, email, password`. -/
def userToJsonText (u : User) : String :=
  "\x7b\"id\":" ++ toString u.id ++ ",\"name\":" ++ jsonQuote u.name ++
    ",\"email\":" ++ jsonQuote u.email ++ ",\"password\":" ++ jsonQuote u.password ++ "\x7d"

/-- `JSON.stringify({ error: "User not found" })`. -/
def userNotFoundJson : String := "\x7b\"error\":\"User not found\"\x7d"

/-- `JSON.stringify(users)` for the parsed user list. -/
def usersListToJson (l : List User) : String :=
  "[" ++ String.intercalate "," (l.map userToJsonText) ++ "]"

/-- The read handler of the `users://{id}/profile` resource template.
`idNum` is the value of `Number(variables.id)`: `some n` when the id string
denotes the integer `n`, and `none` when it denotes NaN or a non-integer
number, either of which compares `===`-unequal to every stored integer id.
The handler reads and parses the file (throwing on a corrupt store, hence
`Except`), looks the user up with `find`, and returns the user's JSON or the
`User not found` payload. -/
def getUserHandler (store : StoreFile) (uriHref : String) (idNum : Option Int) : Except String ReadResult :=
  match store with
  | .corrupt err => .error err
  | .users l =>
    match l.find? (fun u => some u.id == idNum) with
    | none => .ok { contents := [{ uri := uriHref, text := userNotFoundJson, mimeType := "application/json" }] }
    | some u => .ok { contents := [{ uri := uriHref, text := userToJsonText u, mimeType := "application/json" }] }

/-- The read handler of the `users://all` resource: reads and parses the file
(throwing on a corrupt store) and returns the whole list as JSON text. -/
def usersAllHandler (store : StoreFile) (uriHref : String) : Except String ReadResult :=
  match store with
  | .corrupt err => .error err
  | .users l => .ok { contents := [{ uri := uriHref, text := usersListToJson l, mimeType := "application/json" }] }

/-- The store operation `listUsers` (spec 4.1), realised in server.js as the
read-and-parse step shared by the resource handlers. -/
def listUsers (store : StoreFile) : Except String (List User) :=
  match store with
  | .corrupt err => .error err
  | .users l => .ok l

/-- One entry of a resource listing (`resources: [...]`). -/
structure ResourceEntry where
  uri : String
  name : String
  description : String
  mimeType : String
deriving Repr, DecidableEq

/-- The `list` function of the `users://all` resource template registration:
a constant single-entry listing, touching no state. -/
def usersTemplateListFn (_store : StoreFile) : List ResourceEntry :=
  [{ uri := "users://all", name := "users", description := "All users in the database",
     mimeType := "application/json" }]

/-- The `list` function of the `users://{id}/profile` resource template
registration: reads and parses the file inside try/catch; on success lists the
single example URI `users://<firstId>/profile` with `firstId = users[0]?.id ?? 1`;
on a read/parse failure the catch branch returns an empty resource list. -/
def getUserTemplateListFn (store : StoreFile) : List ResourceEntry :=
  match store with
  | .corrupt _ => []
  | .users l =>
    let firstId : Int := match l.head? with
      | some u => u.id
      | none => 1
    [{ uri := "users://" ++ toString firstId ++ "/profile",
       name := "get-user",
       description := "Get user by ID. Use users://\x7bid\x7d/profile (e.g. users://" ++
         toString firstId ++ "/profile, users://5/profile)",
       mimeType := "application/json" }]

/-- Name and description of a registered capability, as advertised by the
discovery queries. -/
structure CapabilityInfo where
  name : String
  description : String
deriving Repr, DecidableEq

/-- `listTools()` as a state-passing call: the server's tool registrations are
fixed at startup (`create-user`, `create-random-user`) and the query touches
no state. -/
def listToolsCall (store : StoreFile) : List CapabilityInfo × StoreFile :=
  ([{ name := "create-user", description := "Create a new user in Database" },
    { name := "create-random-user",
      description := "Create a random user using fake data from the sampling API" }], store)

/-- `listPrompts()` as a state-passing call: the single static prompt
registration `generate-fake-user`. -/
def listPromptsCall (store : StoreFile) : List CapabilityInfo × StoreFile :=
  ([{ name := "generate-fake-user", description := "Generate a fake user profile by name" }], store)

/-- `listResourceTemplates()` as a state-passing call: both registrations use
`ResourceTemplate`, so both appear, with their static descriptors. -/
def listResourceTemplatesCall (store : StoreFile) : List CapabilityInfo × StoreFile :=
  ([{ name := "users", description := "All users in the database" },
    { name := "get-user",
      description := "Get user details by ID. Use users://\x7bid\x7d/profile with desired id" }], store)

/-- `listResources()` as a state-passing call: aggregates the registrations'
`list` outputs; the template list functions only read the backing file, so the
store state is returned unchanged. -/
def listResourcesCall (store : StoreFile) : List ResourceEntry × StoreFile :=
  (usersTemplateListFn store ++ getUserTemplateListFn store, store)

/-- JavaScript whitespace as matched by `\s` and removed by `trim()`, on the
ASCII range the handler texts use. -/
def jsWs (c : Char) : Bool :=
  c == ' ' || c == '\t' || c == '\n' || c == '\r' || c == '\x0b' || c == '\x0c'

/-- Remove leading whitespace from a character list. -/
def trimStart (l : List Char) : List Char := l.dropWhile jsWs

/-- Remove trailing whitespace from a character list. -/
def trimEnd (l : List Char) : List Char := (l.reverse.dropWhile jsWs).reverse

/-- JavaScript `String.prototype.trim()`. -/
def jsTrim (l : List Char) : List Char := trimEnd (trimStart l)

/-- The backtick character. -/
def btick : Char := Char.ofNat 96

/-- A triple-backtick code fence. -/
def fence : List Char := [btick, btick, btick]

/-- `.replace(/^```(?:json)?\s*/i, "")`: if the text starts with a fence,
drop it, drop a case-insensitive `json` tag when present, then drop the
following whitespace; otherwise the regex does not match and nothing changes. -/
def stripLeadingFence (l : List Char) : List Char :=
  if l.take 3 = fence then
    let r := l.drop 3
    let r := if (r.take 4).map Char.toLower = ['j', 's', 'o', 'n'] then r.drop 4 else r
    trimStart r
  else l

/-- `.replace(/\s*```$/, "")`: if the text ends with a fence, drop it together
with the maximal whitespace run before it; otherwise the anchored regex does
not match and nothing changes. -/
def stripTrailingFence (l : List Char) : List Char :=
  if l.reverse.take 3 = fence then trimEnd (l.take (l.length - 3)) else l

/-- The cleaning pipeline of the `create-random-user` handler:
`modelText.trim().replace(/^```(?:json)?\s*/i, "").replace(/\s*```$/, "").trim()`. -/
def stripFences (l : List Char) : List Char :=
  jsTrim (stripTrailingFence (stripLeadingFence (jsTrim l)))

/-- The model text `t` wrapped in triple-backtick code fences with language
tag `tag` (empty or `json`), each fence on its own line. -/
def wrapFence (tag t : List Char) : List Char :=
  fence ++ tag ++ '\n' :: (t ++ '\n' :: fence)

/-- A JavaScript value produced by `JSON.parse`. Numbers are modelled by
integers (the fractional part of a number plays no role in the embedded
handlers); object fields model the resulting JS object's own properties, so
keys are unique. -/
inductive JVal where
  | null
  | bool (b : Bool)
  | num (n : Int)
  | str (s : String)
  | arr (elems : List JVal)
  | obj (fields : List (String × JVal))

/-- JavaScript falsiness of a parsed value (`!fakeUser`): `null`, `false`,
`0` and `""` are falsy; objects and arrays are always truthy. -/
def JVal.isFalsy : JVal → Bool
  | .null => true
  | .bool b => !b
  | .num n => n == 0
  | .str s => s == ""
  | .arr _ => false
  | .obj _ => false

/-- Property access `v.k` on a parsed value: defined on objects, `undefined`
(modelled `none`) on every non-object, as in JS where primitive wrappers and
arrays carry none of the accessed field names. -/
def JVal.getProp (v : JVal) (k : String) : Option JVal :=
  match v with
  | .obj fields => (fields.find? (fun f => f.1 == k)).map (fun f => f.2)
  | _ => none

/-- The field validation of the `create-random-user` handler:
`!fakeUser || typeof fakeUser.name !== "string" || typeof fakeUser.email !==
"string" || typeof fakeUser.password !== "string"` fails; otherwise the three
string fields are handed to `createUser` (which copies exactly them). -/
def extractFakeUser (v : JVal) : Option Candidate :=
  if v.isFalsy then none
  else
    match v.getProp "name", v.getProp "email", v.getProp "password" with
    | some (.str n), some (.str e), some (.str p) => some { name := n, email := e, password := p }
    | _, _, _ => none

/-- Outcome of the `sampling/createMessage` round trip as the handler observes
it: the request threw; or it returned but `response.content[0]?.text` is not a
string (`dump` models the appended diagnostic text); or it returned text. -/
inductive SamplingOutcome where
  | reqFailed (err : String)
  | noText (dump : String)
  | text (t : List Char)

/-- The `create-random-user` tool handler, parameterised over the outcome of
the sampling request and over `JSON.parse` (`parse`, a parameter because it is
a JS builtin): clean the model text, parse it, validate the three string
fields, then persist via `createUser`; every failure is returned as
descriptive text with the store untouched. -/
def createRandomUser (parse : List Char → Except String JVal) (store : StoreFile)
    (resp : SamplingOutcome) : ToolResult × StoreFile :=
  match resp with
  | .reqFailed err => ({ content := [{ text := "Model call failed: " ++ err }] }, store)
  | .noText dump =>
    ({ content := [{ text := "Failed to generate fake user profile (no text returned)" ++ dump }] }, store)
  | .text t =>
    match parse (stripFences t) with
    | .error e => ({ content := [{ text := "Failed to parse model output as JSON: " ++ e }] }, store)
    | .ok v =>
      match extractFakeUser v with
      | none =>
        ({ content := [{ text := "Model output is missing required fields: name, email, password" }] }, store)
      | some fakeUser =>
        match createUser store fakeUser with
        | .ok (id, s) => ({ content := [{ text := "User " ++ toString id ++ " created successfully" }] }, s)
        | .error e => ({ content := [{ text := "Failed to create user: " ++ e }] }, store)

/-- Run a sequence of `createUser` calls, threading the store state; an error
(only possible from a corrupt store) stops the run. -/
def runCreates (store : StoreFile) : List Candidate → StoreFile
  | [] => store
  | c :: cs =>
    match createUser store c with
    | .ok (_, s) => runCreates s cs
    | .error _ => store

/-- The records appended by running `createUser` on candidates `cs` from a
list of length `k`: ids `k+1, k+2, ...` in order, fields copied. -/
def mkRecords (k : Nat) : List Candidate → List User
  | [] => []
  | c :: cs =>
    { id := (k : Int) + 1, name := c.name, email := c.email, password := c.password } ::
      mkRecords (k + 1) cs

/-- Well-formedness of a parsed user list: the ids are `1..n` in order — the
invariant `createUser` establishes from an empty store (spec 3: each id
assigned as `count+1` at creation, unique). -/
def canonicalIds (l : List User) : Prop :=
  l.map User.id = (List.range l.length).map (fun i : Nat => (i : Int) + 1)

lemma find?_users_eq_none (l : List User) (idNum : Option Int)
    (h : ∀ u ∈ l, some u.id ≠ idNum) :
    l.find? (fun u => some u.id == idNum) = none := by
  rw [List.find?_eq_none]
  intro u hu hbeq
  exact h u hu (by simpa using hbeq)

/-- C9: `createUser` appends one record and leaves every previously stored
record — values and order — intact: the written list is the old list followed
by the single new record. -/
theorem c9_createUser_frame (l : List User) (c : Candidate) :
    ∃ u : User,
      createUser (.users l) c = .ok ((l.length : Int) + 1, .users (l ++ [u]))
      ∧ u.id = (l.length : Int) + 1 ∧ u.name = c.name ∧ u.email = c.email ∧ u.password = c.password
      ∧ (l ++ [u]).take l.length = l
      ∧ (l ++ [u]).drop l.length = [u] := by
  refine ⟨_, rfl, rfl, rfl, rfl, rfl, List.take_left l _, List.drop_left l _⟩

/-- C7: the `create-user` tool returns `Created user: <id>` text on success,
and on any store failure the catch branch returns `Failed to create user: ...`
as a structured text result with the store untouched; the handler is a total
function, never a thrown fault. -/
theorem c7_create_user_dispatch (store : StoreFile) (args : Candidate) :
    (∀ l, store = .users l →
      createUserTool store args =
        ({ content := [{ text := "Created user: " ++ toString ((l.length : Int) + 1) }] },
         .users (l ++ [{ id := (l.length : Int) + 1, name := args.name,
                         email := args.email, password := args.password }])))
    ∧ (∀ e, store = .corrupt e →
        createUserTool store args =
          ({ content := [{ text := "Failed to create user: " ++ e }] }, store)) := by
  constructor
  · intro l h; subst h; rfl
  · intro e h; subst h; rfl

/-- C7 witness: concrete success and concrete corrupt-store failure. -/
theorem c7_witness :
    createUserTool (.users []) { name := "Ann", email := "ann@x.com", password := "p1" } =
      ({ content := [{ text := "Created user: 1" }] },
       .users [{ id := 1, name := "Ann", email := "ann@x.com", password := "p1" }])
    ∧ createUserTool (.corrupt "SyntaxError: Unexpected token") { name := "Ann", email := "ann@x.com", password := "p1" } =
        ({ content := [{ text := "Failed to create user: SyntaxError: Unexpected token" }] },
         .corrupt "SyntaxError: Unexpected token") := by
  constructor
  · have h := (c7_create_user_dispatch (.users []) { name := "Ann", email := "ann@x.com", password := "p1" }).1 [] rfl
    simpa using h
  · exact (c7_create_user_dispatch (.corrupt "SyntaxError: Unexpected token")
      { name := "Ann", email := "ann@x.com", password := "p1" }).2 _ rfl

/-- C8: discovery is idempotent — each of the four list queries, run twice in
sequence from any store state without intervening mutation, returns the same
result both times and leaves the store state unchanged. -/
theorem c8_discovery_idempotent (s : StoreFile) :
    ((listToolsCall ((listToolsCall s).2)).1 = (listToolsCall s).1
      ∧ (listToolsCall ((listToolsCall s).2)).2 = s)
    ∧ ((listPromptsCall ((listPromptsCall s).2)).1 = (listPromptsCall s).1
      ∧ (listPromptsCall ((listPromptsCall s).2)).2 = s)
    ∧ ((listResourceTemplatesCall ((listResourceTemplatesCall s).2)).1 = (listResourceTemplatesCall s).1
      ∧ (listResourceTemplatesCall ((listResourceTemplatesCall s).2)).2 = s)
    ∧ ((listResourcesCall ((listResourcesCall s).2)).1 = (listResourcesCall s).1
      ∧ (listResourcesCall ((listResourcesCall s).2)).2 = s) :=
  ⟨⟨rfl, rfl⟩, ⟨rfl, rfl⟩, ⟨rfl, rfl⟩, ⟨rfl, rfl⟩⟩

/-- C4 counterexample: on an unreadable or unparsable store the catch branch
of the `users://{id}/profile` template's `list` returns an empty resource
list — zero concrete URIs, not "at least one regardless of store state". -/
theorem c4_counterexample :
    (getUserTemplateListFn (StoreFile.corrupt "SyntaxError: Unexpected token u in JSON at position 0")).length = 0 := rfl

/-- C4 (amended): the `users://all` template's `list` always returns exactly
one concrete URI, and the `users://{id}/profile` template's `list` returns
exactly one concrete URI `users://<firstId>/profile` for every parsable store
state (with `firstId = users[0]?.id ?? 1`); on an unreadable or unparsable
store it returns an empty list. -/
theorem c4_example_uri_amended (s : StoreFile) (l : List User) (e : String) :
    (usersTemplateListFn s).length = 1
    ∧ (getUserTemplateListFn (.users l)).length = 1
    ∧ (getUserTemplateListFn (.users l)).map ResourceEntry.uri =
        ["users://" ++ toString ((l.head?.map User.id).getD 1) ++ "/profile"]
    ∧ getUserTemplateListFn (.corrupt e) = [] := by
  refine ⟨rfl, ?_, ?_, rfl⟩ <;> cases l <;> rfl

/-- C3: for every id absent from the stored user list, the
`users://{id}/profile` read handler returns a successful content payload whose
text is the JSON object `{"error": "User not found"}` — data in a successful
result, not a thrown error. -/
theorem c3_not_found_payload (l : List User) (uri : String) (n : Int)
    (h : n ∉ l.map User.id) :
    getUserHandler (.users l) uri (some n) =
      .ok { contents := [{ uri := uri, text := userNotFoundJson, mimeType := "application/json" }] } := by
  have hnone : l.find? (fun u => some u.id == some n) = none := by
    refine find?_users_eq_none l (some n) ?_
    intro u hu heq
    have hid : u.id = n := by simpa using heq
    exact h (hid ▸ List.mem_map_of_mem User.id hu)
  simp only [getUserHandler]
  rw [hnone]

/-- C3 witness: id 2 absent from a one-user store. -/
theorem c3_witness :
    getUserHandler (.users [{ id := 1, name := "Ann", email := "ann@x.com", password := "p1" }])
        "users://2/profile" (some 2) =
      .ok { contents := [{ uri := "users://2/profile", text := userNotFoundJson,
                           mimeType := "application/json" }] } :=
  c3_not_found_payload _ _ _ (by decide)

/-- C10: the `users://{id}/profile` read handler is total on a parsed store
and returns the `User not found` payload, rather than throwing, for every id
value that matches no stored user — in particular for `Number(id) = NaN`
(`idNum = none`, the non-numeric id strings), which compares unequal to every
stored id. -/
theorem c10_handler_total_on_miss (l : List User) (uri : String) (idNum : Option Int)
    (h : idNum = none ∨ ∀ u ∈ l, some u.id ≠ idNum) :
    getUserHandler (.users l) uri idNum =
      .ok { contents := [{ uri := uri, text := userNotFoundJson, mimeType := "application/json" }] } := by
  have hnone : l.find? (fun u => some u.id == idNum) = none := by
    refine find?_users_eq_none l idNum ?_
    rcases h with h | h
    · intro u _ heq; simp [h] at heq
    · exact h
  simp only [getUserHandler]
  rw [hnone]

/-- C10 witness: a NaN id (non-numeric id string) against a non-empty store. -/
theorem c10_witness :
    getUserHandler (.users [{ id := 1, name := "Ann", email := "ann@x.com", password := "p1" }])
        "users://abc/profile" none =
      .ok { contents := [{ uri := "users://abc/profile", text := userNotFoundJson,
                           mimeType := "application/json" }] } :=
  c10_handler_total_on_miss _ _ _ (Or.inl rfl)

lemma canonicalIds_id_le (l : List User) (h : canonicalIds l) :
    ∀ u ∈ l, u.id ≤ (l.length : Int) := by
  intro u hu
  have hmem : u.id ∈ l.map User.id := List.mem_map_of_mem User.id hu
  rw [h] at hmem
  obtain ⟨i, hmem2, hid⟩ := List.mem_map.mp hmem
  have hi := List.mem_range.mp hmem2
  omega

lemma find?_append_of_none {α : Type} (p : α → Bool) (l₁ l₂ : List α)
    (h : l₁.find? p = none) : (l₁ ++ l₂).find? p = l₂.find? p := by
  rw [List.find?_append, h, Option.none_or]

/-- C1: from any well-formed store state (ids `1..n` in creation order, the
invariant the store maintains), `createUser` assigns `id = length + 1`,
appends a record with exactly the candidate's fields, returns that id, and a
subsequent read of `users://{id}/profile` with that id returns exactly that
record's JSON. -/
theorem c1_create_then_get (l : List User) (user : Candidate) (h : canonicalIds l)
    (uri : String) :
    ∃ u : User,
      createUser (.users l) user = .ok ((l.length : Int) + 1, .users (l ++ [u]))
      ∧ u = { id := (l.length : Int) + 1, name := user.name, email := user.email,
              password := user.password }
      ∧ getUserHandler (.users (l ++ [u])) uri (some ((l.length : Int) + 1)) =
          .ok { contents := [{ uri := uri, text := userToJsonText u,
                               mimeType := "application/json" }] } := by
  refine ⟨_, rfl, rfl, ?_⟩
  have hnone : l.find? (fun u => some u.id == some ((l.length : Int) + 1)) = none := by
    refine find?_users_eq_none l _ ?_
    intro u hu heq
    have : u.id = (l.length : Int) + 1 := by simpa using heq
    have hle := canonicalIds_id_le l h u hu
    omega
  simp only [getUserHandler]
  rw [find?_append_of_none _ _ _ hnone]
  simp [List.find?]

/-- C1 witness: creating `Ann` in the empty (well-formed) store and reading
her profile back. -/
theorem c1_witness :
    ∃ u : User,
      createUser (.users []) { name := "Ann", email := "ann@x.com", password := "p1" } =
        .ok ((([] : List User).length : Int) + 1, .users ([] ++ [u]))
      ∧ u = { id := (([] : List User).length : Int) + 1, name := "Ann", email := "ann@x.com",
              password := "p1" }
      ∧ getUserHandler (.users ([] ++ [u])) "users://1/profile"
            (some ((([] : List User).length : Int) + 1)) =
          .ok { contents := [{ uri := "users://1/profile", text := userToJsonText u,
                               mimeType := "application/json" }] } :=
  c1_create_then_get [] { name := "Ann", email := "ann@x.com", password := "p1" }
    (by rfl) "users://1/profile"

lemma runCreates_users (cs : List Candidate) : ∀ l : List User,
    runCreates (.users l) cs = .users (l ++ mkRecords l.length cs) := by
  induction cs with
  | nil => intro l; simp [runCreates, mkRecords]
  | cons c cs ih =>
    intro l
    simp only [runCreates, createUser]
    rw [ih]
    simp [mkRecords]

lemma mkRecords_length (cs : List Candidate) : ∀ k, (mkRecords k cs).length = cs.length := by
  induction cs with
  | nil => intro k; rfl
  | cons c cs ih => intro k; simp [mkRecords, ih]

lemma mkRecords_map_id (cs : List Candidate) : ∀ k,
    (mkRecords k cs).map User.id = (List.range cs.length).map (fun i : Nat => ((k + i : Nat) : Int) + 1) := by
  induction cs with
  | nil => intro k; rfl
  | cons c cs ih =>
    intro k
    simp only [mkRecords, List.map_cons, List.length_cons, List.range_succ_eq_map,
      List.map_map, ih (k + 1)]
    refine List.cons_eq_cons.mpr ⟨by simp, ?_⟩
    apply List.map_congr_left
    intro i _
    simp only [Function.comp_apply]
    omega

lemma mkRecords_map_fields (cs : List Candidate) : ∀ k,
    (mkRecords k cs).map (fun u => Candidate.mk u.name u.email u.password) = cs := by
  induction cs with
  | nil => intro k; rfl
  | cons c cs ih => intro k; simp [mkRecords, ih]

/-- C6: starting from an empty store, after `N` sequential `createUser` calls
the list returned by `listUsers` (the `users://all` read) has exactly `N`
records, their ids are `1..N` in creation order, and their fields are the
candidates' fields in creation order. -/
theorem c6_sequential_creates (cs : List Candidate) (uri : String) :
    ∃ l : List User,
      listUsers (runCreates (.users []) cs) = .ok l
      ∧ usersAllHandler (runCreates (.users []) cs) uri =
          .ok { contents := [{ uri := uri, text := usersListToJson l,
                               mimeType := "application/json" }] }
      ∧ l.length = cs.length
      ∧ l.map User.id = (List.range cs.length).map (fun i : Nat => (i : Int) + 1)
      ∧ l.map (fun u => Candidate.mk u.name u.email u.password) = cs := by
  refine ⟨mkRecords 0 cs, ?_, ?_, mkRecords_length cs 0, ?_, mkRecords_map_fields cs 0⟩
  · rw [show runCreates (.users []) cs = .users (mkRecords 0 cs) by
      simpa using runCreates_users cs []]
    rfl
  · rw [show runCreates (.users []) cs = .users (mkRecords 0 cs) by
      simpa using runCreates_users cs []]
    rfl
  · rw [mkRecords_map_id cs 0]
    apply List.map_congr_left
    intro i _
    simp

lemma extractFakeUser_eq_none_of_missing (v : JVal)
    (h : (∀ s, v.getProp "password" ≠ some (.str s))
      ∨ (∀ s, v.getProp "name" ≠ some (.str s))
      ∨ (∀ s, v.getProp "email" ≠ some (.str s))) :
    extractFakeUser v = none := by
  unfold extractFakeUser
  split
  · rfl
  · split
    · rcases h with h | h | h
      · exact absurd (by assumption) (h _)
      · exact absurd (by assumption) (h _)
      · exact absurd (by assumption) (h _)
    · rfl

/-- C2: when the model text, after fence-stripping, parses as JSON but the
parsed value has no string `password` field (or no string `name` or `email`),
the `create-random-user` tool returns the text
`Model output is missing required fields: name, email, password` and the
backing store is left unchanged. -/
theorem c2_missing_field_no_persist (parse : List Char → Except String JVal)
    (store : StoreFile) (t : List Char) (v : JVal)
    (hparse : parse (stripFences t) = .ok v)
    (hmiss : (∀ s, v.getProp "password" ≠ some (.str s))
      ∨ (∀ s, v.getProp "name" ≠ some (.str s))
      ∨ (∀ s, v.getProp "email" ≠ some (.str s))) :
    createRandomUser parse store (.text t) =
      ({ content := [{ text := "Model output is missing required fields: name, email, password" }] },
       store) := by
  have hex := extractFakeUser_eq_none_of_missing v hmiss
  simp only [createRandomUser]
  rw [hparse]
  simp [hex]

/-- C2 witness: a parsed object with `name` and `email` but no `password`,
against a concrete store. -/
theorem c2_witness :
    createRandomUser (fun _ => .ok (.obj [("name", .str "John Doe"), ("email", .str "john@x.com")]))
        (.users [{ id := 1, name := "Ann", email := "ann@x.com", password := "p1" }]) (.text []) =
      ({ content := [{ text := "Model output is missing required fields: name, email, password" }] },
       .users [{ id := 1, name := "Ann", email := "ann@x.com", password := "p1" }]) :=
  c2_missing_field_no_persist _ _ _ _ rfl
    (Or.inl (by intro s hs; simp [JVal.getProp] at hs))

/-- The opening brace character. -/
def obrace : Char := Char.ofNat 123

/-- The closing brace character. -/
def cbrace : Char := Char.ofNat 125

lemma dropWhile_append_all {p : Char → Bool} (a b : List Char)
    (h : ∀ c ∈ a, p c = true) : (a ++ b).dropWhile p = b.dropWhile p := by
  induction a with
  | nil => rfl
  | cons c r ih =>
    have hc : p c = true := h c (List.mem_cons_self c r)
    simp only [List.cons_append, List.dropWhile_cons, hc, if_true]
    exact ih (fun d hd => h d (List.mem_cons_of_mem c hd))

lemma trimStart_append_ws (a b : List Char) (h : ∀ c ∈ a, jsWs c = true) :
    trimStart (a ++ b) = trimStart b :=
  dropWhile_append_all a b h

lemma trimStart_cons_nonws (c : Char) (r : List Char) (h : jsWs c = false) :
    trimStart (c :: r) = c :: r := by
  simp [trimStart, List.dropWhile_cons, h]

lemma trimEnd_append_ws (x z : List Char) (h : ∀ c ∈ z, jsWs c = true) :
    trimEnd (x ++ z) = trimEnd x := by
  unfold trimEnd
  rw [List.reverse_append, dropWhile_append_all _ _ (fun d hd => h d (List.mem_reverse.mp hd))]

lemma trimEnd_concat_nonws (x : List Char) (c : Char) (h : jsWs c = false) :
    trimEnd (x ++ [c]) = x ++ [c] := by
  unfold trimEnd
  rw [List.reverse_append]
  simp only [List.reverse_cons, List.reverse_nil, List.nil_append, List.cons_append,
    List.dropWhile_cons, h]
  simp

lemma jsTrim_brace_text (body : List Char) :
    jsTrim (obrace :: (body ++ [cbrace])) = obrace :: (body ++ [cbrace]) := by
  unfold jsTrim
  rw [trimStart_cons_nonws _ _ (by decide)]
  rw [show obrace :: (body ++ [cbrace]) = (obrace :: body) ++ [cbrace] by simp]
  rw [trimEnd_concat_nonws _ _ (by decide)]

lemma trim_decomp (t : List Char) :
    ∃ a b, (∀ c ∈ a, jsWs c = true) ∧ (∀ c ∈ b, jsWs c = true)
      ∧ t = a ++ (jsTrim t ++ b) := by
  refine ⟨t.takeWhile jsWs, ((trimStart t).reverse.takeWhile jsWs).reverse, ?_, ?_, ?_⟩
  · exact fun c hc => List.mem_takeWhile_imp hc
  · intro c hc
    exact List.mem_takeWhile_imp (List.mem_reverse.mp hc)
  · have h1 : t = t.takeWhile jsWs ++ trimStart t :=
      (List.takeWhile_append_dropWhile jsWs t).symm
    have h2 : (trimStart t).reverse =
        (trimStart t).reverse.takeWhile jsWs ++ (trimStart t).reverse.dropWhile jsWs :=
      (List.takeWhile_append_dropWhile jsWs _).symm
    have h3 : trimStart t =
        ((trimStart t).reverse.dropWhile jsWs).reverse ++
          ((trimStart t).reverse.takeWhile jsWs).reverse := by
      have hc := congrArg List.reverse h2
      rw [List.reverse_reverse, List.reverse_append] at hc
      exact hc
    rw [show jsTrim t ++ ((trimStart t).reverse.takeWhile jsWs).reverse = trimStart t from h3.symm]
    exact h1

lemma ne_fence_of_head (c : Char) (r : List Char) (h : c ≠ btick) :
    (c :: r).take 3 ≠ fence := by
  intro heq
  have hh := congrArg List.head? heq
  simp only [fence] at hh
  have : some c = some btick := by
    simpa using hh
  exact h (Option.some.injEq _ _ ▸ this)

lemma rev_take3_concat_fence (x : List Char) : ((x ++ fence).reverse).take 3 = fence := by
  rw [List.reverse_append]
  rfl

lemma take_sub3_concat_fence (x : List Char) :
    (x ++ fence).take ((x ++ fence).length - 3) = x := by
  have hlen : (x ++ fence).length - 3 = x.length := by simp [fence]
  rw [hlen]
  exact List.take_left x fence

lemma stripFences_plain (t body : List Char)
    (hb : jsTrim t = obrace :: (body ++ [cbrace])) :
    stripFences t = jsTrim t := by
  have hlead : stripLeadingFence (obrace :: (body ++ [cbrace])) = obrace :: (body ++ [cbrace]) := by
    unfold stripLeadingFence
    rw [if_neg (ne_fence_of_head _ _ (by decide))]
  have htrail : stripTrailingFence (obrace :: (body ++ [cbrace])) = obrace :: (body ++ [cbrace]) := by
    have hrev : (obrace :: (body ++ [cbrace])).reverse = cbrace :: (body.reverse ++ [obrace]) := by
      simp
    unfold stripTrailingFence
    rw [hrev, if_neg (ne_fence_of_head _ _ (by decide))]
  unfold stripFences
  rw [hb, hlead, htrail, jsTrim_brace_text]

lemma stripFences_wrapped (tag t body : List Char)
    (htag : tag = [] ∨ tag = ['j', 's', 'o', 'n'])
    (hb : jsTrim t = obrace :: (body ++ [cbrace])) :
    stripFences (wrapFence tag t) = jsTrim t := by
  obtain ⟨a, b, ha, hbw, ht⟩ := trim_decomp t
  have ht' : t = a ++ ((obrace :: (body ++ [cbrace])) ++ b) := by rw [ht, hb]
  have hwsA : ∀ c ∈ ('\n' :: a : List Char), jsWs c = true := by
    intro c hc
    rcases List.mem_cons.mp hc with rfl | h
    · decide
    · exact ha c h
  have hwsB : ∀ c ∈ (b ++ ['\n'] : List Char), jsWs c = true := by
    intro c hc
    rcases List.mem_append.mp hc with h | h
    · exact hbw c h
    · rw [List.mem_singleton.mp h]
      decide
  have h1 : jsTrim (wrapFence tag t) = wrapFence tag t := by
    have hcons : wrapFence tag t =
        btick :: (btick :: btick :: (tag ++ '\n' :: (t ++ '\n' :: fence))) := by
      simp [wrapFence, fence]
    have hconcat : wrapFence tag t =
        (fence ++ (tag ++ '\n' :: (t ++ ['\n', btick, btick]))) ++ [btick] := by
      simp [wrapFence, fence]
    unfold jsTrim
    rw [hcons, trimStart_cons_nonws _ _ (by decide), ← hcons, hconcat,
      trimEnd_concat_nonws _ _ (by decide)]
  have hlead : stripLeadingFence (wrapFence tag t) = trimStart ('\n' :: (t ++ '\n' :: fence)) := by
    rcases htag with rfl | rfl <;> rfl
  have h2 : trimStart ('\n' :: (t ++ '\n' :: fence)) =
      (obrace :: (body ++ [cbrace])) ++ (b ++ '\n' :: fence) := by
    conv_lhs => rw [ht']
    rw [show ('\n' :: ((a ++ ((obrace :: (body ++ [cbrace])) ++ b)) ++ '\n' :: fence) : List Char) =
      ('\n' :: a) ++ ((obrace :: (body ++ [cbrace])) ++ (b ++ '\n' :: fence)) by simp]
    rw [trimStart_append_ws _ _ hwsA]
    rw [show ((obrace :: (body ++ [cbrace])) ++ (b ++ '\n' :: fence) : List Char) =
      obrace :: ((body ++ [cbrace]) ++ (b ++ '\n' :: fence)) by simp]
    rw [trimStart_cons_nonws _ _ (by decide)]
  have h3 : stripTrailingFence ((obrace :: (body ++ [cbrace])) ++ (b ++ '\n' :: fence)) =
      obrace :: (body ++ [cbrace]) := by
    have hx : ((obrace :: (body ++ [cbrace])) ++ (b ++ '\n' :: fence) : List Char) =
        ((obrace :: (body ++ [cbrace])) ++ (b ++ ['\n'])) ++ fence := by simp
    unfold stripTrailingFence
    rw [hx, if_pos (rev_take3_concat_fence _), take_sub3_concat_fence,
      trimEnd_append_ws _ _ hwsB]
    rw [show (obrace :: (body ++ [cbrace]) : List Char) = (obrace :: body) ++ [cbrace] by simp]
    exact trimEnd_concat_nonws _ _ (by decide)
  unfold stripFences
  rw [h1, hlead, h2, h3, jsTrim_brace_text, hb]

/-- C5: the `create-random-user` tool processes a model response whose text is
a JSON object text wrapped in triple-backtick code fences (with or without a
`json` language tag) identically to the same text unwrapped: the cleaned text,
the parse, the persisted record and the result text all coincide. -/
theorem c5_fence_wrapping_equivalent (parse : List Char → Except String JVal)
    (store : StoreFile) (tag t body : List Char)
    (htag : tag = [] ∨ tag = ['j', 's', 'o', 'n'])
    (hb : jsTrim t = obrace :: (body ++ [cbrace])) :
    createRandomUser parse store (.text (wrapFence tag t)) =
      createRandomUser parse store (.text t) := by
  have h1 := stripFences_wrapped tag t body htag hb
  have h2 := stripFences_plain t body hb
  simp only [createRandomUser, h1, h2]

/-- C5 witness: a concrete complete JSON profile, fenced with a `json` tag
versus unwrapped, against a concrete parse function and store. -/
theorem c5_witness :
    createRandomUser (fun _ => .error "SyntaxError: Unexpected token")
        (.users []) (.text (wrapFence ['j', 's', 'o', 'n']
          ("\x7b\"name\":\"John Doe\",\"email\":\"john@x.com\",\"password\":\"secret\"\x7d".toList))) =
      createRandomUser (fun _ => .error "SyntaxError: Unexpected token")
        (.users []) (.text ("\x7b\"name\":\"John Doe\",\"email\":\"john@x.com\",\"password\":\"secret\"\x7d".toList)) :=
  c5_fence_wrapping_equivalent _ _ _ _
    ("\"name\":\"John Doe\",\"email\":\"john@x.com\",\"password\":\"secret\"".toList)
    (Or.inr rfl) (by decide)
